import Mathlib

/-!
Shallow embedding of the agentic task-automation pipeline in `agent.py`:
the session data model, the history persistence layer, the five stage
agents, and the orchestrator `run_agents`.

Modelling conventions:
- Python strings are Lean `String`; Python slicing by code points is
  `List.take` on `String.data`.
- The Gemini model call (`genai.configure` / `GenerativeModel` /
  `generate_content` inside `Agent.generate_response`) is an external
  effect; it is abstracted as a function `Gen` from the agent handle and
  the prompt to `Except String String` — `Except.error e` models the
  provider raising an exception whose `str(e)` is `e`.
- Wall-clock readings (`time.time()`, `datetime.now().strftime`) are
  external inputs threaded through a `RunEnv`.
- Float durations rounded to 2 decimals (`round(time.time() - start, 2)`)
  are modelled as exact integer centiseconds.
- The filesystem holding `task_history.json` is a `FileState`; an
  unwritable disk is the flag `writable := false` given to `save_history`.
- `json.dump` / `json.load` are modelled by an explicit `Json` tree with
  an encoder and decoder for the task-record collection.
-/

/-- Process-wide settings dictionary, `st.session_state.settings`
(agent.py lines 26-34).  `temperature` is in tenths (0.7 is 7). -/
structure Settings where
  planner_model : String
  executive_model : String
  researcher_model : String
  critic_model : String
  max_steps : Nat
  temperature : Nat
  verbose : Bool
deriving DecidableEq, Repr

/-- One task record as built by `run_agents` (agent.py lines 160-170).
`completion_time` is in centiseconds. -/
structure TaskRecord where
  id : String
  task : String
  timestamp : String
  steps : String
  research : String
  execution : String
  critique : String
  refinement : String
  completion_time : Int
deriving DecidableEq, Repr

/-- One entry of the agent message log, as appended by
`log_agent_message` (agent.py lines 143-149). -/
structure AgentMessage where
  agent : String
  message : String
  timestamp : String
deriving DecidableEq, Repr

/-- The Streamlit session state used by the orchestration core
(agent.py lines 19-34). -/
structure SessionState where
  task_history : List TaskRecord
  current_task_id : Option String
  agent_messages : List AgentMessage
  settings : Settings
deriving DecidableEq, Repr

/-- A JSON value, the image of `json.dump` and domain of `json.load`.
Numbers are modelled as integers (durations are in centiseconds). -/
inductive Json where
  | str : String → Json
  | num : Int → Json
  | arr : List Json → Json
  | obj : List (String × Json) → Json

/-- Serialization of one task record: the dict is always built with its
keys in the fixed order of agent.py lines 160-170, and `json.dump`
preserves dict insertion order. -/
def encodeRecord (r : TaskRecord) : Json :=
  Json.obj [("id", Json.str r.id), ("task", Json.str r.task),
    ("timestamp", Json.str r.timestamp), ("steps", Json.str r.steps),
    ("research", Json.str r.research), ("execution", Json.str r.execution),
    ("critique", Json.str r.critique), ("refinement", Json.str r.refinement),
    ("completion_time", Json.num r.completion_time)]

/-- Reading one record back from its JSON form; `none` models stored data
that is not shaped like a record written by `save_history`. -/
def decodeRecord : Json → Option TaskRecord
  | Json.obj [("id", Json.str id), ("task", Json.str task),
      ("timestamp", Json.str timestamp), ("steps", Json.str steps),
      ("research", Json.str research), ("execution", Json.str execution),
      ("critique", Json.str critique), ("refinement", Json.str refinement),
      ("completion_time", Json.num completion_time)] =>
    some ⟨id, task, timestamp, steps, research, execution, critique,
      refinement, completion_time⟩
  | _ => none

/-- Serialization of the whole history collection (a JSON array). -/
def encodeHistory (h : List TaskRecord) : Json :=
  Json.arr (h.map encodeRecord)

/-- Decode a list of JSON values as task records, failing if any element
fails. -/
def decodeRecordList : List Json → Option (List TaskRecord)
  | [] => some []
  | j :: js =>
    match decodeRecord j, decodeRecordList js with
    | some r, some rs => some (r :: rs)
    | _, _ => none

/-- Decode a whole stored history. -/
def decodeHistory : Json → Option (List TaskRecord)
  | Json.arr js => decodeRecordList js
  | _ => none

/-- State of the durable file `task_history.json`.  `parseFail` is a file
whose text `json.load` rejects; `parsed j` is a file whose text parses to
the JSON value `j`. -/
inductive FileState where
  | missing : FileState
  | unreadable : FileState
  | parseFail : FileState
  | parsed : Json → FileState

/-- How a history load can fail: an I/O error opening or reading the
file, or `json.load` rejecting its text. -/
inductive LoadErr where
  | ioError : LoadErr
  | jsonError : LoadErr
deriving DecidableEq, Repr

/-- The untyped value held in `st.session_state.task_history`: the
program itself only ever stores a record list (`records`), but the
startup `json.load` assignment is untyped and can leave any other
well-formed JSON value there (`other`).  The two constructors partition
the Python values without changing them: `records h` stands for exactly
the JSON encoding of the record list `h`, and `other j` for any parsed
value that is not a record collection. -/
inductive HistoryValue where
  | records : List TaskRecord → HistoryValue
  | other : Json → HistoryValue

/-- `save_history` (agent.py lines 37-39): serializes the full in-memory
collection and overwrites the file.  There is no try/except around the
write, so an I/O failure (modelled by `writable = false`) propagates to
the caller as `Except.error`. -/
def save_history (writable : Bool) (history : List TaskRecord)
    (_fs : FileState) : Except Unit FileState :=
  if writable then Except.ok (FileState.parsed (encodeHistory history))
  else Except.error ()

/-- `load_history` (agent.py lines 42-45): if the file exists,
`json.load` parses it and its result — whatever well-formed JSON it is —
is assigned to the in-memory history verbatim; if the file does not
exist, the in-memory history (`prior`) is left unchanged.  Only an
unreadable file or a parse failure raises.  A parsed value that is a
record collection is classified as `records`, any other parsed value is
kept unchanged as `other`. -/
def load_history (fs : FileState) (prior : HistoryValue) :
    Except LoadErr HistoryValue :=
  match fs with
  | FileState.missing => Except.ok prior
  | FileState.unreadable => Except.error LoadErr.ioError
  | FileState.parseFail => Except.error LoadErr.jsonError
  | FileState.parsed j =>
    Except.ok (match decodeHistory j with
      | some h => HistoryValue.records h
      | none => HistoryValue.other j)

/-- The startup load (agent.py lines 48-51): `load_history()` wrapped in
try/except, with the except branch resetting the history to the empty
list.  It is a total function — no exception escapes it. -/
def startup_load (fs : FileState) (prior : HistoryValue) : HistoryValue :=
  match load_history fs prior with
  | Except.ok v => v
  | Except.error _ => HistoryValue.records []

theorem decodeRecord_encodeRecord (r : TaskRecord) :
    decodeRecord (encodeRecord r) = some r := rfl

theorem decodeRecordList_map_encodeRecord (h : List TaskRecord) :
    decodeRecordList (h.map encodeRecord) = some h := by
  induction h with
  | nil => rfl
  | cons r rs ih => simp [decodeRecordList, decodeRecord_encodeRecord, ih]

theorem decodeHistory_encodeHistory (h : List TaskRecord) :
    decodeHistory (encodeHistory h) = some h := by
  simp [decodeHistory, encodeHistory, decodeRecordList_map_encodeRecord]

/-- One stage agent handle (class `Agent`, agent.py lines 54-58).
`temperature` is in tenths (the default 0.7 is 7). -/
structure Agent where
  role : String
  model_name : String
  temperature : Nat
deriving DecidableEq, Repr

/-- Abstraction of the external Gemini call made inside
`Agent.generate_response` (`genai.configure`, `GenerativeModel`,
`generate_content`): the agent handle (model name, temperature) and the
prompt map to either the generated text or the message of a raised
exception. -/
abbrev Gen : Type := Agent → String → Except String String

/-- `Agent.generate_response` (agent.py lines 60-71): on success return
`response.text`; on any exception, report it (`st.error`, an external
display effect not modelled) and return the fallback text
`"Error in <role> agent: <str(e)>"`.  No exception escapes. -/
def generate_response (a : Agent) (gen : Gen) (prompt : String) : String :=
  match gen a prompt with
  | Except.ok t => t
  | Except.error e => "Error in " ++ a.role ++ " agent: " ++ e

/-- `log_agent_message` (agent.py lines 143-149): append one entry to the
session message log; the timestamp is an external clock reading passed
in as `ts`. -/
def log_agent_message (ts : String) (agent_name message : String)
    (msgs : List AgentMessage) : List AgentMessage :=
  msgs ++ [⟨agent_name, message, ts⟩]

/-- The planner prompt of `PlannerAgent.plan_task` (agent.py lines 75-80),
with the f-string interpolation written out. -/
def planPrompt (task : String) : String :=
  "As a Task Planning Agent, break down this task into detailed, executable steps. \n        Format the steps as a numbered list with clear instructions.\n        \n        Task: " ++ task ++ "\n        \n        Provide a comprehensive plan that covers all aspects of the task."

/-- The researcher prompt of `ResearcherAgent.gather_information`
(agent.py lines 88-93). -/
def gatherPrompt (task steps : String) : String :=
  "As a Research Agent, gather relevant information to help complete this task.\n        \n        Task: " ++ task ++ "\n        Steps: " ++ steps ++ "\n        \n        Provide key information, facts, or data that would be helpful for executing this task."

/-- The executive prompt of `ExecutiveAgent.execute_task`
(agent.py lines 101-107). -/
def executePrompt (task steps research : String) : String :=
  "As an Executive Agent, execute the given steps based on the task description and research provided.\n        \n        Task: " ++ task ++ "\n        Steps: " ++ steps ++ "\n        Research: " ++ research ++ "\n        \n        Provide the complete solution with detailed execution of each step."

/-- The critic prompt of `CriticAgent.evaluate_solution`
(agent.py lines 115-122). -/
def evaluatePrompt (task steps research execution : String) : String :=
  "As a Critic Agent, evaluate the solution provided by the Executive Agent.\n        \n        Task: " ++ task ++ "\n        Steps: " ++ steps ++ "\n        Research: " ++ research ++ "\n        Execution: " ++ execution ++ "\n        \n        Provide constructive feedback, identify any issues or areas for improvement, and suggest refinements."

/-- The refiner prompt of `RefinerAgent.refine_solution`
(agent.py lines 130-136). -/
def refinePrompt (task execution critique : String) : String :=
  "As a Refiner Agent, improve the solution based on the critique provided.\n        \n        Task: " ++ task ++ "\n        Current Solution: " ++ execution ++ "\n        Critique: " ++ critique ++ "\n        \n        Provide an improved and refined solution that addresses the issues identified in the critique."

/-- `PlannerAgent.plan_task` (agent.py lines 73-84): returns the artifact
and the message log after this stage appends its entry. -/
def plan_task (a : Agent) (gen : Gen) (ts : String) (task : String)
    (msgs : List AgentMessage) : String × List AgentMessage :=
  let steps := generate_response a gen (planPrompt task)
  (steps, log_agent_message ts "Planner"
    ("I've broken down the task into these steps:\n\n" ++ steps) msgs)

/-- `ResearcherAgent.gather_information` (agent.py lines 86-97). -/
def gather_information (a : Agent) (gen : Gen) (ts : String)
    (task steps : String) (msgs : List AgentMessage) :
    String × List AgentMessage :=
  let research := generate_response a gen (gatherPrompt task steps)
  (research, log_agent_message ts "Researcher"
    ("I've gathered this relevant information:\n\n" ++ research) msgs)

/-- `ExecutiveAgent.execute_task` (agent.py lines 99-111). -/
def execute_task (a : Agent) (gen : Gen) (ts : String)
    (task steps research : String) (msgs : List AgentMessage) :
    String × List AgentMessage :=
  let execution := generate_response a gen (executePrompt task steps research)
  (execution, log_agent_message ts "Executive"
    ("I've executed the task. Here's the result:\n\n" ++ execution) msgs)

/-- `CriticAgent.evaluate_solution` (agent.py lines 113-126). -/
def evaluate_solution (a : Agent) (gen : Gen) (ts : String)
    (task steps research execution : String) (msgs : List AgentMessage) :
    String × List AgentMessage :=
  let critique :=
    generate_response a gen (evaluatePrompt task steps research execution)
  (critique, log_agent_message ts "Critic"
    ("Here's my evaluation of the solution:\n\n" ++ critique) msgs)

/-- `RefinerAgent.refine_solution` (agent.py lines 128-140). -/
def refine_solution (a : Agent) (gen : Gen) (ts : String)
    (task execution critique : String) (msgs : List AgentMessage) :
    String × List AgentMessage :=
  let refinement :=
    generate_response a gen (refinePrompt task execution critique)
  (refinement, log_agent_message ts "Refiner"
    ("I've refined the solution:\n\n" ++ refinement) msgs)

/-- `generate_task_id` (agent.py lines 151-152): the first 8 characters
of the textual form of a freshly drawn UUID (`str(uuid.uuid4())[:8]`;
Python slices by code points, so this is `List.take 8` on the character
list). -/
def generate_task_id (uuid : String) : String :=
  String.mk (uuid.data.take 8)

/-- External inputs consumed by one call of `run_agents`: the model call,
the drawn UUID text, the record creation timestamp, the five clock
readings taken by `log_agent_message`, and the start and end
`time.time()` readings in centiseconds. -/
structure RunEnv where
  gen : Gen
  uuid : String
  createdAt : String
  logTimes : Fin 5 → String
  startTime : Int
  endTime : Int

/-- `run_agents` (agent.py lines 154-212): generate a fresh id, reset the
message log, build the five agents from the settings, run the stages in
fixed order, fill the record, append it to the in-memory history, then
`save_history` (whose I/O failure propagates — `Except.error`).  The
`st.status` progress display is an external effect not modelled. -/
def run_agents (env : RunEnv) (writable : Bool) (task : String)
    (s : SessionState) (fs : FileState) :
    Except Unit TaskRecord × SessionState × FileState :=
  let task_id := generate_task_id env.uuid
  let s0 := { s with current_task_id := some task_id, agent_messages := [] }
  let planner : Agent :=
    ⟨"Planner", s0.settings.planner_model, s0.settings.temperature⟩
  let researcher : Agent :=
    ⟨"Researcher", s0.settings.researcher_model, s0.settings.temperature⟩
  let executive : Agent :=
    ⟨"Executive", s0.settings.executive_model, s0.settings.temperature⟩
  let critic : Agent :=
    ⟨"Critic", s0.settings.critic_model, s0.settings.temperature⟩
  let refiner : Agent :=
    ⟨"Refiner", s0.settings.executive_model, s0.settings.temperature⟩
  let r1 := plan_task planner env.gen (env.logTimes 0) task s0.agent_messages
  let r2 := gather_information researcher env.gen (env.logTimes 1) task r1.1 r1.2
  let r3 := execute_task executive env.gen (env.logTimes 2) task r1.1 r2.1 r2.2
  let r4 := evaluate_solution critic env.gen (env.logTimes 3) task r1.1 r2.1 r3.1 r3.2
  let r5 := refine_solution refiner env.gen (env.logTimes 4) task r3.1 r4.1 r4.2
  let record : TaskRecord :=
    ⟨task_id, task, env.createdAt, r1.1, r2.1, r3.1, r4.1, r5.1,
      env.endTime - env.startTime⟩
  let s1 := { s0 with agent_messages := r5.2
                      task_history := s0.task_history ++ [record] }
  match save_history writable s1.task_history fs with
  | Except.ok fs1 => (Except.ok record, s1, fs1)
  | Except.error _ => (Except.error (), s1, fs)

/-- The five agents a run builds from the settings (agent.py lines
175-179; the refiner reuses `executive_model`). -/
def plannerOf (st : Settings) : Agent :=
  ⟨"Planner", st.planner_model, st.temperature⟩

def researcherOf (st : Settings) : Agent :=
  ⟨"Researcher", st.researcher_model, st.temperature⟩

def executiveOf (st : Settings) : Agent :=
  ⟨"Executive", st.executive_model, st.temperature⟩

def criticOf (st : Settings) : Agent :=
  ⟨"Critic", st.critic_model, st.temperature⟩

def refinerOf (st : Settings) : Agent :=
  ⟨"Refiner", st.executive_model, st.temperature⟩

/-- The planner artifact of a run. -/
def runSteps (env : RunEnv) (task : String) (st : Settings) : String :=
  generate_response (plannerOf st) env.gen (planPrompt task)

/-- The researcher artifact of a run. -/
def runResearch (env : RunEnv) (task : String) (st : Settings) : String :=
  generate_response (researcherOf st) env.gen
    (gatherPrompt task (runSteps env task st))

/-- The executive artifact of a run. -/
def runExecution (env : RunEnv) (task : String) (st : Settings) : String :=
  generate_response (executiveOf st) env.gen
    (executePrompt task (runSteps env task st) (runResearch env task st))

/-- The critic artifact of a run. -/
def runCritique (env : RunEnv) (task : String) (st : Settings) : String :=
  generate_response (criticOf st) env.gen
    (evaluatePrompt task (runSteps env task st) (runResearch env task st)
      (runExecution env task st))

/-- The refiner artifact of a run. -/
def runRefinement (env : RunEnv) (task : String) (st : Settings) : String :=
  generate_response (refinerOf st) env.gen
    (refinePrompt task (runExecution env task st) (runCritique env task st))

/-- The completed task record of a run. -/
def runRecord (env : RunEnv) (task : String) (st : Settings) : TaskRecord :=
  ⟨generate_task_id env.uuid, task, env.createdAt, runSteps env task st,
    runResearch env task st, runExecution env task st,
    runCritique env task st, runRefinement env task st,
    env.endTime - env.startTime⟩

/-- The message log left behind by a run. -/
def runMessages (env : RunEnv) (task : String) (st : Settings) :
    List AgentMessage :=
  [⟨"Planner", "I've broken down the task into these steps:\n\n"
      ++ runSteps env task st, env.logTimes 0⟩,
   ⟨"Researcher", "I've gathered this relevant information:\n\n"
      ++ runResearch env task st, env.logTimes 1⟩,
   ⟨"Executive", "I've executed the task. Here's the result:\n\n"
      ++ runExecution env task st, env.logTimes 2⟩,
   ⟨"Critic", "Here's my evaluation of the solution:\n\n"
      ++ runCritique env task st, env.logTimes 3⟩,
   ⟨"Refiner", "I've refined the solution:\n\n"
      ++ runRefinement env task st, env.logTimes 4⟩]

theorem run_agents_eq (env : RunEnv) (w : Bool) (task : String)
    (s : SessionState) (fs : FileState) :
    run_agents env w task s fs =
      ((if w then Except.ok (runRecord env task s.settings)
        else Except.error ()),
       { s with current_task_id := some (generate_task_id env.uuid)
                agent_messages := runMessages env task s.settings
                task_history :=
                  s.task_history ++ [runRecord env task s.settings] },
       (if w then
          FileState.parsed (encodeHistory
            (s.task_history ++ [runRecord env task s.settings]))
        else fs)) := by
  cases w <;>
    simp [run_agents, save_history, plan_task, gather_information,
      execute_task, evaluate_solution, refine_solution, log_agent_message,
      runRecord, runMessages, runSteps, runResearch, runExecution,
      runCritique, runRefinement, plannerOf, researcherOf, executiveOf,
      criticOf, refinerOf]

/-- C2: Message Log discipline — the log is reset at the start of every
run (the resulting log is independent of the incoming one), and after
`run_agents` completes it holds exactly 5 entries, one per stage, in the
fixed order Planner, Researcher, Executive, Critic, Refiner, regardless
of the model call outcome (the statement holds for every `Gen` inside
`env`) and of the save outcome `w`. -/
theorem c2_message_log_discipline (env : RunEnv) (w : Bool) (task : String)
    (s : SessionState) (fs : FileState) :
    ((run_agents env w task s fs).2.1.agent_messages).length = 5 ∧
    ((run_agents env w task s fs).2.1.agent_messages).map AgentMessage.agent
      = ["Planner", "Researcher", "Executive", "Critic", "Refiner"] ∧
    (∀ m : List AgentMessage,
      (run_agents env w task { s with agent_messages := m } fs).2.1.agent_messages
        = (run_agents env w task s fs).2.1.agent_messages) := by
  simp [run_agents_eq, runMessages]

/-- C5: persistence failure semantics — `save_history` raises on I/O
failure rather than swallowing it, and `run_agents` appends the finished
record to the in-memory history before calling `save_history`, so a run
whose save fails still leaves the new record in the in-memory history
(and the file untouched) while the failure propagates out of the run. -/
theorem c5_save_failure_semantics (env : RunEnv) (task : String)
    (s : SessionState) (fs : FileState) (h : List TaskRecord) :
    save_history false h fs = Except.error () ∧
    (run_agents env false task s fs).1 = Except.error () ∧
    (run_agents env false task s fs).2.1.task_history
      = s.task_history ++ [runRecord env task s.settings] ∧
    (run_agents env false task s fs).2.2 = fs := by
  simp [run_agents_eq, save_history]

/-- C9: frame property — `run_agents` never mutates the process-wide
settings: the session state after any run carries exactly the settings it
started with (hence every field, planner_model, executive_model,
researcher_model, critic_model, max_steps, temperature and verbose, is
unchanged); the settings are only read when the five stage agents are
constructed. -/
theorem c9_run_agents_settings_frame (env : RunEnv) (w : Bool)
    (task : String) (s : SessionState) (fs : FileState) :
    (run_agents env w task s fs).2.1.settings = s.settings := by
  simp [run_agents_eq]

/-- C7: input containment — each stage prompt contains its declared
inputs verbatim (planner: task; researcher: task, steps; executive:
task, steps, research; critic: task, steps, research, execution;
refiner: task, execution, critique), each prompt builder is a function
of exactly those inputs, and in a run every stage is invoked on the
prompt built from the artifacts already produced in stage order, so no
prompt draws on a field that is not yet populated. -/
theorem c7_input_containment (env : RunEnv) (task : String)
    (s : SessionState) (fs : FileState) :
    (∀ t, ∃ a b, planPrompt t = a ++ t ++ b) ∧
    (∀ t st, ∃ a b c, gatherPrompt t st = a ++ t ++ b ++ st ++ c) ∧
    (∀ t st re, ∃ a b c d,
      executePrompt t st re = a ++ t ++ b ++ st ++ c ++ re ++ d) ∧
    (∀ t st re ex, ∃ a b c d e,
      evaluatePrompt t st re ex
        = a ++ t ++ b ++ st ++ c ++ re ++ d ++ ex ++ e) ∧
    (∀ t ex cr, ∃ a b c d,
      refinePrompt t ex cr = a ++ t ++ b ++ ex ++ c ++ cr ++ d) ∧
    (∃ r, (run_agents env true task s fs).1 = Except.ok r ∧
      r.steps = generate_response (plannerOf s.settings) env.gen
        (planPrompt task) ∧
      r.research = generate_response (researcherOf s.settings) env.gen
        (gatherPrompt task r.steps) ∧
      r.execution = generate_response (executiveOf s.settings) env.gen
        (executePrompt task r.steps r.research) ∧
      r.critique = generate_response (criticOf s.settings) env.gen
        (evaluatePrompt task r.steps r.research r.execution) ∧
      r.refinement = generate_response (refinerOf s.settings) env.gen
        (refinePrompt task r.execution r.critique)) := by
  refine ⟨fun t => ⟨_, _, rfl⟩, fun t st => ⟨_, _, _, rfl⟩,
    fun t st re => ⟨_, _, _, _, rfl⟩,
    fun t st re ex => ⟨_, _, _, _, _, rfl⟩,
    fun t ex cr => ⟨_, _, _, _, rfl⟩,
    runRecord env task s.settings, ?_, rfl, rfl, rfl, rfl, rfl⟩
  simp [run_agents_eq]

/-- C1: fail-soft invariant — whatever the model call does, the run
completes: the run result is `Except.ok` of a record with all five stage
fields present exactly when the save succeeds (so no exception from a
model call ever escapes `run_agents`), and any stage whose model call
raises `e` gets as its field the fallback text
`"Error in <role> agent: " ++ e`, which begins with the literal
`"Error in "` marker. -/
theorem c1_fail_soft (env : RunEnv) (task : String) (s : SessionState)
    (fs : FileState) :
    (∀ w : Bool, (run_agents env w task s fs).1.isOk = w) ∧
    (run_agents env true task s fs).1
      = Except.ok (runRecord env task s.settings) ∧
    (∀ e, env.gen (plannerOf s.settings) (planPrompt task)
        = Except.error e →
      (runRecord env task s.settings).steps
        = "Error in Planner agent: " ++ e) ∧
    (∀ e, env.gen (researcherOf s.settings)
        (gatherPrompt task (runRecord env task s.settings).steps)
        = Except.error e →
      (runRecord env task s.settings).research
        = "Error in Researcher agent: " ++ e) ∧
    (∀ e, env.gen (executiveOf s.settings)
        (executePrompt task (runRecord env task s.settings).steps
          (runRecord env task s.settings).research)
        = Except.error e →
      (runRecord env task s.settings).execution
        = "Error in Executive agent: " ++ e) ∧
    (∀ e, env.gen (criticOf s.settings)
        (evaluatePrompt task (runRecord env task s.settings).steps
          (runRecord env task s.settings).research
          (runRecord env task s.settings).execution)
        = Except.error e →
      (runRecord env task s.settings).critique
        = "Error in Critic agent: " ++ e) ∧
    (∀ e, env.gen (refinerOf s.settings)
        (refinePrompt task (runRecord env task s.settings).execution
          (runRecord env task s.settings).critique)
        = Except.error e →
      (runRecord env task s.settings).refinement
        = "Error in Refiner agent: " ++ e) := by
  refine ⟨fun w => ?_, by simp [run_agents_eq], fun e he => ?_, fun e he => ?_,
    fun e he => ?_, fun e he => ?_, fun e he => ?_⟩
  · cases w <;> simp [run_agents_eq, Except.isOk, Except.toBool]
  · simp only [plannerOf] at he
    simp only [runRecord, runSteps, generate_response, plannerOf, he]
    rfl
  · simp only [runRecord, researcherOf] at he
    simp only [runRecord, runResearch, generate_response, researcherOf, he]
    rfl
  · simp only [runRecord, executiveOf] at he
    simp only [runRecord, runExecution, generate_response, executiveOf, he]
    rfl
  · simp only [runRecord, criticOf] at he
    simp only [runRecord, runCritique, generate_response, criticOf, he]
    rfl
  · simp only [runRecord, refinerOf] at he
    simp only [runRecord, runRefinement, generate_response, refinerOf, he]
    rfl

/-- A model call that always raises, for exercising the fail-soft path. -/
def genFail : Gen := fun _ _ => Except.error "boom"

/-- A model call that always succeeds, for exercising the normal path. -/
def genOk : Gen := fun _ _ => Except.ok "output text"

/-- The default settings dictionary (agent.py lines 26-34). -/
def settings0 : Settings :=
  ⟨"gemini-1.5-flash", "gemini-1.5-flash", "gemini-1.5-flash",
    "gemini-1.5-flash", 10, 7, true⟩

/-- A fresh session (agent.py lines 19-34). -/
def state0 : SessionState := ⟨[], none, [], settings0⟩

/-- A concrete run environment whose every model call raises. -/
def env0 : RunEnv :=
  ⟨genFail, "0f3a9c2e-1b4d-4a6f-8e2a-77c0d1b2a3f4", "2026-10-12 00:00:00",
    fun _ => "00:00:00", 0, 250⟩

/-- A concrete run environment whose every model call succeeds. -/
def env1 : RunEnv :=
  ⟨genOk, "0f3a9c2e-1b4d-4a6f-8e2a-77c0d1b2a3f4", "2026-10-12 00:00:00",
    fun _ => "00:00:01", 0, 100⟩

theorem c1_fail_soft_witness :
    (run_agents env0 true "t" state0 FileState.missing).1.isOk = true ∧
    (runRecord env0 "t" settings0).steps = "Error in Planner agent: boom" ∧
    (runRecord env0 "t" settings0).critique
      = "Error in Critic agent: boom" := by
  obtain ⟨h1, _, h3, _, _, h6, _⟩ :=
    c1_fail_soft env0 "t" state0 FileState.missing
  exact ⟨h1 true, h3 "boom" rfl, h6 "boom" rfl⟩

/-- C3: round-trip persistence — for any non-empty history, saving it
with `save_history` and reading the resulting file back with
`load_history` yields a collection equal to the original, field for
field, record for record, in the same order. -/
theorem c3_history_round_trip (h : List TaskRecord) (fs : FileState)
    (prior : HistoryValue) (hne : h ≠ []) :
    save_history true h fs
      = Except.ok (FileState.parsed (encodeHistory h)) ∧
    load_history (FileState.parsed (encodeHistory h)) prior
      = Except.ok (HistoryValue.records h) := by
  exact ⟨rfl, by simp [load_history, decodeHistory_encodeHistory]⟩

/-- A concrete completed task record. -/
def rec0 : TaskRecord :=
  ⟨"0f3a9c2e", "Summarize photosynthesis in two sentences",
    "2026-10-12 00:00:00", "1. Identify inputs", "facts", "solution",
    "feedback", "final answer", 125⟩

theorem c3_history_round_trip_witness :
    ([rec0] ≠ ([] : List TaskRecord)) ∧
    save_history true [rec0] FileState.missing
      = Except.ok (FileState.parsed (encodeHistory [rec0])) ∧
    load_history (FileState.parsed (encodeHistory [rec0]))
        (HistoryValue.records [])
      = Except.ok (HistoryValue.records [rec0]) :=
  ⟨by simp, c3_history_round_trip [rec0] FileState.missing
    (HistoryValue.records []) (by simp)⟩

/-- C4 counterexample: a history file holding the well-formed JSON text
"5" is malformed as a stored record collection, yet the startup load
does not yield the empty history: `json.load` succeeds, the untyped
assignment at agent.py line 45 leaves the number 5 in the in-memory
history, and the try/except never fires — so the claim that malformed
durable storage yields the empty in-memory collection is false. -/
theorem c4_load_counterexample :
    startup_load (FileState.parsed (Json.num 5)) (HistoryValue.records [])
      = HistoryValue.other (Json.num 5) ∧
    HistoryValue.other (Json.num 5) ≠ HistoryValue.records [] :=
  ⟨rfl, fun h => HistoryValue.noConfusion h⟩

/-- C4 amended: the startup history load never raises to its caller —
any well-formed file is loaded without error and every load failure is
caught by the try/except — and whenever the history file is missing,
unreadable, or its text is not valid JSON, the in-memory history
afterwards is the empty collection (the prior in-memory history at
startup being the freshly initialized empty list); but a file holding
well-formed JSON that is not a record collection is loaded verbatim
into the in-memory history rather than replaced by the empty
collection. -/
theorem c4_startup_load_semantics (fs : FileState) (prior : HistoryValue)
    (hbad : fs = FileState.missing ∨ fs = FileState.unreadable ∨
      fs = FileState.parseFail) :
    startup_load fs (HistoryValue.records []) = HistoryValue.records [] ∧
    (∀ j, ∃ v, load_history (FileState.parsed j) prior = Except.ok v) ∧
    (∀ j, decodeHistory j = none →
      startup_load (FileState.parsed j) prior = HistoryValue.other j) := by
  refine ⟨?_, fun j => ⟨_, rfl⟩, fun j hj => ?_⟩
  · rcases hbad with rfl | rfl | rfl <;> rfl
  · simp [startup_load, load_history, hj]

theorem c4_startup_load_semantics_witness :
    startup_load FileState.unreadable (HistoryValue.records [])
      = HistoryValue.records [] ∧
    startup_load (FileState.parsed (Json.str "junk"))
        (HistoryValue.records [])
      = HistoryValue.other (Json.str "junk") :=
  ⟨(c4_startup_load_semantics FileState.unreadable
      (HistoryValue.records []) (Or.inr (Or.inl rfl))).1,
   (c4_startup_load_semantics FileState.unreadable
      (HistoryValue.records []) (Or.inr (Or.inl rfl))).2.2
     (Json.str "junk") rfl⟩

/-- C10: id shape — `generate_task_id` applied to the textual form of a
UUID (canonically 36 characters) returns its first 8 characters, a
string of length exactly 8. -/
theorem c10_id_shape (u : String) (h : u.length = 36) :
    (generate_task_id u).length = 8 ∧
    generate_task_id u = String.mk (u.data.take 8) := by
  refine ⟨?_, rfl⟩
  have hd : u.data.length = 36 := h
  simp [generate_task_id, String.length, List.length_take, hd]

theorem c10_id_shape_witness :
    ("0f3a9c2e-1b4d-4a6f-8e2a-77c0d1b2a3f4" : String).length = 36 ∧
    (generate_task_id "0f3a9c2e-1b4d-4a6f-8e2a-77c0d1b2a3f4").length = 8 :=
  ⟨by decide, (c10_id_shape "0f3a9c2e-1b4d-4a6f-8e2a-77c0d1b2a3f4"
    (by decide)).1⟩

/-- C6 counterexample: two runs whose freshly drawn UUIDs are distinct
(they differ after the 8th character) nevertheless produce the same task
id, because `generate_task_id` keeps only the first 8 characters of the
UUID text — so N distinct UUID draws do not guarantee N pairwise
distinct ids. -/
theorem c6_id_uniqueness_counterexample :
    ("12345678-aaaa-4bbb-8ccc-000000000001" : String)
      ≠ "12345678-dddd-4eee-9fff-000000000002" ∧
    generate_task_id "12345678-aaaa-4bbb-8ccc-000000000001"
      = generate_task_id "12345678-dddd-4eee-9fff-000000000002" :=
  ⟨by decide, by decide⟩

/-- C6 amended: the ids of a sequence of runs are pairwise distinct
exactly when the drawn UUID texts are pairwise distinct in their first 8
characters; distinctness of the full UUIDs is not enough. -/
theorem c6_id_distinct_iff (u v : String) :
    generate_task_id u = generate_task_id v
      ↔ u.data.take 8 = v.data.take 8 := by
  constructor
  · intro h
    simpa [generate_task_id] using congrArg String.data h
  · intro h
    simp [generate_task_id, h]

/-- C8 counterexample: in a concrete successful run, the first message
log entry is produced by the Planner, yet its message text does not
begin with the role name "Planner" — it begins with the fixed narration
"I have broken down…", so the claim that every entry message is prefixed
by its stage role is false. -/
theorem c8_message_role_counterexample :
    ((run_agents env1 true "t" state0 FileState.missing).2.1.agent_messages.getD
      0 ⟨"", "", ""⟩).agent = "Planner" ∧
    List.isPrefixOf "Planner".data
      (((run_agents env1 true "t" state0 FileState.missing).2.1.agent_messages.getD
        0 ⟨"", "", ""⟩).message).data = false := by
  constructor
  · decide
  · decide

/-- C8 amended: every message log entry carries the role name of the
stage that produced it in its `agent` field, and its message text is a
fixed stage-specific narration followed by that stage's artifact; the
role name appears in the `agent` field, not as the leading text of the
message. -/
theorem c8_role_in_agent_field (env : RunEnv) (w : Bool) (task : String)
    (s : SessionState) (fs : FileState) :
    (run_agents env w task s fs).2.1.agent_messages =
      [⟨"Planner", "I've broken down the task into these steps:\n\n"
          ++ runSteps env task s.settings, env.logTimes 0⟩,
       ⟨"Researcher", "I've gathered this relevant information:\n\n"
          ++ runResearch env task s.settings, env.logTimes 1⟩,
       ⟨"Executive", "I've executed the task. Here's the result:\n\n"
          ++ runExecution env task s.settings, env.logTimes 2⟩,
       ⟨"Critic", "Here's my evaluation of the solution:\n\n"
          ++ runCritique env task s.settings, env.logTimes 3⟩,
       ⟨"Refiner", "I've refined the solution:\n\n"
          ++ runRefinement env task s.settings, env.logTimes 4⟩] := by
  simp [run_agents_eq, runMessages]
